import Mathlib

/-!
Shallow embedding of `veroviz/generateNodes.py` (node-generation core of the
veroviz package) and verification of its specification.

Modelling conventions:
* Coordinates are `(lat, lon)` pairs of rationals (standing in for Python
  floats); `math.sqrt` is an opaque function `msqrt : ℚ → ℚ` (Python's float
  square root is itself only an approximation of the real one).
* The process-wide `np.random` generator is modelled as a pre-sampled stream
  `stream : Nat → ℚ` together with a cursor `idx`; every call to a random
  primitive (`np.random.uniform`, `np.random.normal`, and the single draw
  inside `randomPick`) consumes exactly one stream element, whose value stands
  for the outcome of that draw.  The distribution parameters do not constrain
  the modelled value.
* Every externally observable action (an RNG draw, a call to the ear-clipping
  triangulator `tripy.earclip`, a uniform-in-polygon batch request, a call to
  the road-snap adapter `privGetSnapLocBatch`) is recorded in an event trace
  carried in the state `RS`.
* Collaborators imported from modules of the repository that are not present
  under `src/` (`veroviz._geometry`, `veroviz._internal`, `veroviz._getSnapLoc`,
  `veroviz._validation`, `veroviz._createEntitiesFromList`) and the external
  library `tripy` are either opaque fields of the capability record `Ext`, or
  definitions marked `Modelled from the spec:` below.
* The two rejection-sampling `while` loops of the source have no termination
  bound; they are modelled with an explicit `fuel` parameter and an `Option`
  result: `none` models the (possible) non-termination of the loop.
-/

namespace Veroviz

abbrev Coord : Type := ℚ × ℚ

abbrev Polygon : Type := List Coord

abbrev Tri : Type := Coord × Coord × Coord

/-- Observable events of a run: one RNG draw; entry into the uniform-in-polygon
sampler with the requested batch size; a triangulation of a polygon by
`tripy.earclip`; one call to the road-snap adapter with the batch size sent and
the three plumbed arguments (`dataProvider`, `APIkey` slot, `databaseName`).
`α` is the (opaque) type of the caller's `dataProviderArgs` dictionary. -/
inductive Ev (α : Type) where
  | rnd : Ev α
  | uniformBatch : Nat → Ev α
  | earclipCall : Polygon → Ev α
  | snapCall : Nat → Option String → α → Option String → Ev α
  deriving DecidableEq, Repr

/-- Run state: the RNG cursor and the chronological event trace. -/
structure RS (α : Type) where
  idx : Nat
  trace : List (Ev α)
  deriving DecidableEq, Repr

/-- Opaque external collaborators (modules not under `src/`, plus the `tripy`
library and the float square root).  No claim depends on their internals. -/
structure Ext (α : Type) where
  stream : Nat → ℚ
  msqrt : ℚ → ℚ
  earclip : Polygon → List Tri
  geoPointInDistance2D : Coord → ℚ → ℚ → Coord
  geoIsPointInPoly : Coord → Polygon → Bool
  geoDistance2D : Coord → Coord → ℚ
  nearestRoad : Coord → Coord

variable {α : Type}

/-- Consume one value from the random stream, recording the draw. -/
def draw (E : Ext α) (s : RS α) : ℚ × RS α :=
  (E.stream s.idx, ⟨s.idx + 1, s.trace ++ [Ev.rnd]⟩)

/-- Modelled from the spec: `randomPick` (`veroviz._internal`, not under
`src/`).  Spec §4.3: scan the cumulative sums of the weights for the interval
containing the drawn value `u`.  The scan itself, given `u` already drawn. -/
def randomPickScan (weights : List ℚ) (u : ℚ) : Nat :=
  match weights with
  | [] => 0
  | w :: ws => if u < w then 0 else randomPickScan ws (u - w) + 1

/-- Modelled from the spec: `randomPick` (`veroviz._internal`, not under
`src/`).  Spec §4.3: the drawn value lies in `[0, totalArea)`, so the scan
always lands on a valid index; the clamp keeps the index in range for
out-of-model streams and the empty list.  In this embedding the single uniform
draw made inside `randomPick` is consumed by the caller and passed in as `u`. -/
def randomPick (weights : List ℚ) (u : ℚ) : Nat :=
  min (randomPickScan weights u) (weights.length - 1)

/-- Modelled from the spec: `areaOfTriangle` (`veroviz._internal`, not under
`src/`).  Spec §4.1: planar shoelace area on `(lat, lon)` treated as Cartesian
coordinates. -/
def areaOfTriangle (a b c : Coord) : ℚ :=
  |a.1 * (b.2 - c.2) + b.1 * (c.2 - a.2) + c.1 * (a.2 - b.2)| / 2

/-- `_genNodesUniformTriangle` (source lines 289–326): for each of `numNodes`
iterations draw `rndR1`, `rndR2` and combine the triangle's vertices with the
barycentric coefficients built from `math.sqrt rndR1` and `rndR2`, the same
pair applied to the lat components and to the lon components. -/
def genNodesUniformTriangle (E : Ext α) (numNodes : Nat) (triangle : Tri)
    (s : RS α) : List Coord × RS α :=
  match numNodes with
  | 0 => ([], s)
  | n + 1 =>
    let p1 := draw E s
    let rndR1 := p1.1
    let p2 := draw E p1.2
    let rndR2 := p2.1
    let rndLat := (1 - E.msqrt rndR1) * triangle.1.1
      + E.msqrt rndR1 * (1 - rndR2) * triangle.2.1.1
      + E.msqrt rndR1 * rndR2 * triangle.2.2.1
    let rndLon := (1 - E.msqrt rndR1) * triangle.1.2
      + E.msqrt rndR1 * (1 - rndR2) * triangle.2.1.2
      + E.msqrt rndR1 * rndR2 * triangle.2.2.2
    let rest := genNodesUniformTriangle E n triangle p2.2
    ((rndLat, rndLon) :: rest.1, rest.2)

/-- The loop of `_genNodesUniformBounded` (source lines 281–286): `numNodes`
iterations, each picking a triangle index weighted by area (one draw, made
inside `randomPick`) and generating one node inside it (two draws).  Out-of-
range indices (possible only for an empty triangle list, i.e. a degenerate
polygon rejected upstream) fall back to a degenerate triangle via `getD`. -/
def ubLoop (E : Ext α) (k : Nat) (lstTriangle : List Tri) (lstArea : List ℚ)
    (s : RS α) : List Coord × RS α :=
  match k with
  | 0 => ([], s)
  | k + 1 =>
    let pu := draw E s
    let index := randomPick lstArea pu.1
    let newLoc := genNodesUniformTriangle E 1
      (lstTriangle.getD index ((0, 0), (0, 0), (0, 0))) pu.2
    let rest := ubLoop E k lstTriangle lstArea newLoc.2
    (newLoc.1 ++ rest.1, rest.2)

/-- `_genNodesUniformBounded` (source lines 253–287): triangulate the bounding
region once with `tripy.earclip`, compute the area of every triangle, then run
the per-node loop reusing both lists. -/
def genNodesUniformBounded (E : Ext α) (numNodes : Nat) (boundingRegion : Polygon)
    (s : RS α) : List Coord × RS α :=
  let lstTriangle := E.earclip boundingRegion
  let lstArea := lstTriangle.map (fun t => areaOfTriangle t.1 t.2.1 t.2.2)
  let s1 : RS α :=
    ⟨s.idx, s.trace ++ [Ev.uniformBatch numNodes, Ev.earclipCall boundingRegion]⟩
  ubLoop E numNodes lstTriangle lstArea s1

/-- `_genNodesNormal` (source lines 368–399): for each node draw a bearing
(uniform) and a radial offset (normal) and apply `geoPointInDistance2D`. -/
def genNodesNormal (E : Ext α) (numNodes : Nat) (center : Coord)
    (standardDeviation : ℚ) (s : RS α) : List Coord × RS α :=
  match numNodes with
  | 0 => ([], s)
  | n + 1 =>
    let pu := draw E s
    let pn := draw E pu.2
    let newLoc := E.geoPointInDistance2D center pu.1 pn.1
    let rest := genNodesNormal E n center standardDeviation pn.2
    (newLoc :: rest.1, rest.2)

/-- One point of `_genNodesNormalBounded` (source lines 356–364): draw a
bearing and an offset, compute the candidate, and repeat while the candidate
fails `geoIsPointInPoly` (the source's draw-then-`while` is a do-while).
`none` models non-termination of the rejection loop. -/
def nbAttempt (E : Ext α) (boundingRegion : Polygon) (center : Coord)
    (standardDeviation : ℚ) (fuel : Nat) (s : RS α) : Option (Coord × RS α) :=
  match fuel with
  | 0 => none
  | fuel + 1 =>
    let pu := draw E s
    let pn := draw E pu.2
    let newLoc := E.geoPointInDistance2D center pu.1 pn.1
    if E.geoIsPointInPoly newLoc boundingRegion then some (newLoc, pn.2)
    else nbAttempt E boundingRegion center standardDeviation fuel pn.2

/-- `_genNodesNormalBounded` (source lines 328–366): `numNodes` accepted
points, each produced by the rejection loop `nbAttempt`. -/
def genNodesNormalBounded (E : Ext α) (fuel : Nat) (numNodes : Nat)
    (boundingRegion : Polygon) (center : Coord) (standardDeviation : ℚ)
    (s : RS α) : Option (List Coord × RS α) :=
  match numNodes with
  | 0 => some ([], s)
  | n + 1 =>
    match nbAttempt E boundingRegion center standardDeviation fuel s with
    | none => none
    | some (p, s1) =>
      match genNodesNormalBounded E fuel n boundingRegion center
          standardDeviation s1 with
      | none => none
      | some (rest, s2) => some (p :: rest, s2)

/-- Modelled from the spec: `privGetSnapLocBatch` (`veroviz._getSnapLoc`, not
under `src/`).  Spec §6 contract: output has the same length and order as the
input, each output being the nearest road-network point to the corresponding
input; the third parameter is the provider-arguments slot.  The source calls it
with a fourth positional argument (`databaseName`).  The call is recorded as a
`snapCall` event carrying the batch size and the three plumbed arguments. -/
def privGetSnapLocBatch (E : Ext α) (locs : List Coord)
    (dataProvider : Option String) (APIkey : α) (databaseName : Option String)
    (s : RS α) : List Coord × RS α :=
  (locs.map E.nearestRoad,
   ⟨s.idx, s.trace ++ [Ev.snapCall locs.length dataProvider APIkey databaseName]⟩)

/-- The filtering `for` loop of `_genNodesRoadBased` (source lines 437–439):
keep the original (pre-snap) candidate `newLocs[i]` exactly when its planar
distance to its snap result `snapLocs[i]` is within `distToRoad`.  The source
pairs the two lists by index; the adapter contract guarantees equal lengths. -/
def acceptClose (E : Ext α) (distToRoad : ℚ) (newLocs snapLocs : List Coord) :
    List Coord :=
  match newLocs, snapLocs with
  | p :: ps, q :: qs =>
    if E.geoDistance2D p q ≤ distToRoad then p :: acceptClose E distToRoad ps qs
    else acceptClose E distToRoad ps qs
  | _, _ => []

/-- The `while` loop of `_genNodesRoadBased` (source lines 434–439): while
fewer than `numNodes` points have been accepted, draw exactly the still-needed
number of uniform-in-polygon candidates, submit the whole batch to the adapter
in one call, and keep the candidates that pass the distance test.  `none`
models non-termination of the rejection loop. -/
def rbLoop (E : Ext α) (numNodes : Nat) (boundingRegion : Polygon)
    (distToRoad : ℚ) (dataProvider : Option String) (APIkey : α)
    (databaseName : Option String) (fuel : Nat) (locs : List Coord)
    (s : RS α) : Option (List Coord × RS α) :=
  match fuel with
  | 0 => if locs.length < numNodes then none else some (locs, s)
  | fuel + 1 =>
    if locs.length < numNodes then
      let newLocs := genNodesUniformBounded E (numNodes - locs.length)
        boundingRegion s
      let snapLocs := privGetSnapLocBatch E newLocs.1 dataProvider APIkey
        databaseName newLocs.2
      rbLoop E numNodes boundingRegion distToRoad dataProvider APIkey
        databaseName fuel (locs ++ acceptClose E distToRoad newLocs.1 snapLocs.1)
        snapLocs.2
    else some (locs, s)

/-- `_genNodesRoadBased` (source lines 401–441).  Its Python signature is
`(numNodes, boundingRegion, distToRoad, dataProvider, APIkey, databaseName)`;
the dispatcher calls it with five positional arguments, so `dataProviderArgs`
arrives in the `APIkey` slot and `databaseName` keeps its default `None`. -/
def genNodesRoadBased (E : Ext α) (fuel : Nat) (numNodes : Nat)
    (boundingRegion : Polygon) (distToRoad : ℚ) (dataProvider : Option String)
    (APIkey : α) (databaseName : Option String) (s : RS α) :
    Option (List Coord × RS α) :=
  rbLoop E numNodes boundingRegion distToRoad dataProvider APIkey databaseName
    fuel [] s

/-- Verdict of the external validation collaborator `valGenerateNodes`
(`veroviz._validation`, not under `src/`): a flag plus message texts. -/
structure ValResult where
  valFlag : Bool
  errorMsg : String
  warningMsg : String
  deriving DecidableEq, Repr

/-- The projection of the `nodeDistribArgs` dictionary onto the four keys read
by the dispatcher.  A `none` field models an absent key; reading an absent key
is Python's `KeyError`. -/
structure DistribArgs where
  boundingRegion : Option Polygon
  center : Option Coord
  stdDev : Option ℚ
  distToRoad : Option ℚ
  deriving DecidableEq, Repr

/-- Outcome of `generateNodes`: the coordinate list handed to the (external)
node-construction collaborator `privCreateNodesFromLocs`; or the early return
after a failed validation (the source prints `errorMsg` and returns `None`);
or a `KeyError` on a missing `nodeDistribArgs` key; or the `UnboundLocalError`
raised at the node-construction line when no dispatch branch assigned `locs`;
or exhaustion of the fuel bounding a rejection loop (modelled
non-termination). -/
inductive GenOut where
  | nodes : List Coord → GenOut
  | validationError : GenOut
  | keyError : GenOut
  | unboundLocal : GenOut
  | exhausted : GenOut
  deriving DecidableEq, Repr

/-- `generateNodes` (source lines 18–251), restricted to the parameters that
the sampling logic reads (the styling/naming parameters are passed through,
unread, to the external validation and node-construction collaborators).  The
validation verdict is supplied by the external collaborator as `val`.  Warning
printing (source lines 222–223) has no observable effect in this model.  Key
reads follow the source's order within each branch. -/
def generateNodes (E : Ext α) (fuel : Nat) (val : ValResult) (numNodes : Nat)
    (nodeDistrib : String) (nodeDistribArgs : DistribArgs)
    (dataProvider : Option String) (dataProviderArgs : α) (s : RS α) :
    GenOut × RS α :=
  if val.valFlag = false then (GenOut.validationError, s)
  else if nodeDistrib = "uniformBB" then
    match nodeDistribArgs.boundingRegion with
    | none => (GenOut.keyError, s)
    | some boundingRegion =>
      let r := genNodesUniformBounded E numNodes boundingRegion s
      (GenOut.nodes r.1, r.2)
  else if nodeDistrib = "normal" then
    match nodeDistribArgs.boundingRegion with
    | none =>
      match nodeDistribArgs.center with
      | none => (GenOut.keyError, s)
      | some center =>
        match nodeDistribArgs.stdDev with
        | none => (GenOut.keyError, s)
        | some standardDeviation =>
          let r := genNodesNormal E numNodes center standardDeviation s
          (GenOut.nodes r.1, r.2)
    | some boundingRegion =>
      match nodeDistribArgs.center with
      | none => (GenOut.keyError, s)
      | some center =>
        match nodeDistribArgs.stdDev with
        | none => (GenOut.keyError, s)
        | some standardDeviation =>
          match genNodesNormalBounded E fuel numNodes boundingRegion center
              standardDeviation s with
          | none => (GenOut.exhausted, s)
          | some (locs, s1) => (GenOut.nodes locs, s1)
  else if nodeDistrib = "normalBB" then
    match nodeDistribArgs.boundingRegion with
    | none => (GenOut.keyError, s)
    | some boundingRegion =>
      match nodeDistribArgs.center with
      | none => (GenOut.keyError, s)
      | some center =>
        match nodeDistribArgs.stdDev with
        | none => (GenOut.keyError, s)
        | some standardDeviation =>
          match genNodesNormalBounded E fuel numNodes boundingRegion center
              standardDeviation s with
          | none => (GenOut.exhausted, s)
          | some (locs, s1) => (GenOut.nodes locs, s1)
  else if nodeDistrib = "unifRoadBasedBB" then
    match nodeDistribArgs.boundingRegion with
    | none => (GenOut.keyError, s)
    | some boundingRegion =>
      match nodeDistribArgs.distToRoad with
      | none => (GenOut.keyError, s)
      | some distToRoad =>
        match genNodesRoadBased E fuel numNodes boundingRegion distToRoad
            dataProvider dataProviderArgs none s with
        | none => (GenOut.exhausted, s)
        | some (locs, s1) => (GenOut.nodes locs, s1)
  else (GenOut.unboundLocal, s)

/-- The spec's uniform-in-triangle transform (§4.4), written from the spec's
words: `(1-√r1)·V1 + √r1·(1-r2)·V2 + √r1·r2·V3`, the same `(r1, r2)` pair
applied componentwise to the latitudes and the longitudes of the vertices. -/
def specBarycentric (sq : ℚ → ℚ) (r1 r2 : ℚ) (t : Tri) : Coord :=
  ((1 - sq r1) * t.1.1 + sq r1 * (1 - r2) * t.2.1.1 + sq r1 * r2 * t.2.2.1,
   (1 - sq r1) * t.1.2 + sq r1 * (1 - r2) * t.2.1.2 + sq r1 * r2 * t.2.2.2)

/-- Per-round trace discipline of the road-proximity sampler: from `acc`
already-accepted points, either the target is met and nothing is emitted, or
one round emits one uniform-in-polygon batch request for exactly the
still-needed `numNodes - acc` candidates (one triangulation, three draws per
candidate) followed by exactly one adapter call submitting exactly that batch,
after which `m ≤ numNodes - acc` candidates are newly accepted. -/
inductive RoadRounds (boundingRegion : Polygon) (dataProvider : Option String)
    (APIkey : α) (databaseName : Option String) (numNodes : Nat) :
    Nat → List (Ev α) → Prop where
  | done : ∀ acc, numNodes ≤ acc →
      RoadRounds boundingRegion dataProvider APIkey databaseName numNodes acc []
  | round : ∀ acc m rest, acc < numNodes → m ≤ numNodes - acc →
      RoadRounds boundingRegion dataProvider APIkey databaseName numNodes
        (acc + m) rest →
      RoadRounds boundingRegion dataProvider APIkey databaseName numNodes acc
        (Ev.uniformBatch (numNodes - acc) :: Ev.earclipCall boundingRegion ::
         (List.replicate (3 * (numNodes - acc)) Ev.rnd ++
          Ev.snapCall (numNodes - acc) dataProvider APIkey databaseName :: rest))

/-- A concrete capability record used to instantiate the theorems: every point
is in every polygon, the road snap is the identity (distance 0), the stream is
constantly `1/2`, and `earclip` returns one triangle. -/
def testExt : Ext String :=
  { stream := fun _ => 1 / 2
    msqrt := fun q => q
    earclip := fun _ => [((0, 0), (0, 4), (4, 0))]
    geoPointInDistance2D := fun c _ _ => c
    geoIsPointInPoly := fun _ _ => true
    geoDistance2D := fun _ _ => 0
    nearestRoad := fun p => p }

/-- A concrete bounding polygon for instantiations. -/
def testPoly : Polygon := [(0, 0), (0, 4), (4, 0)]

/-! Helper lemmas about the samplers. -/

theorem ut_state (E : Ext α) (n : Nat) (t : Tri) (s : RS α) :
    (genNodesUniformTriangle E n t s).2
      = ⟨s.idx + 2 * n, s.trace ++ List.replicate (2 * n) Ev.rnd⟩ := by
  induction n generalizing s with
  | zero => simp [genNodesUniformTriangle]
  | succ n ih =>
    simp only [genNodesUniformTriangle, draw]
    rw [ih]
    simp only [RS.mk.injEq]
    refine ⟨by omega, ?_⟩
    rw [show 2 * (n + 1) = 2 + 2 * n by omega, List.replicate_add]
    simp [List.replicate_succ]

theorem ut_len (E : Ext α) (n : Nat) (t : Tri) (s : RS α) :
    (genNodesUniformTriangle E n t s).1.length = n := by
  induction n generalizing s with
  | zero => simp [genNodesUniformTriangle]
  | succ n ih => simp [genNodesUniformTriangle, draw, ih]

theorem ut_getD (E : Ext α) (n : Nat) (t : Tri) (s : RS α) :
    ∀ k, k < n →
      (genNodesUniformTriangle E n t s).1.getD k (0, 0)
        = specBarycentric E.msqrt (E.stream (s.idx + 2 * k))
            (E.stream (s.idx + 2 * k + 1)) t := by
  induction n generalizing s with
  | zero => intro k hk; omega
  | succ n ih =>
    intro k hk
    cases k with
    | zero => simp [genNodesUniformTriangle, draw, specBarycentric]
    | succ k =>
      have hk2 : k < n := by omega
      simp only [genNodesUniformTriangle, draw, List.getD_cons_succ]
      rw [ih _ k hk2]
      simp only [RS.idx]
      rw [show s.idx + 1 + 1 + 2 * k = s.idx + 2 * (k + 1) by omega]

theorem ubLoop_state (E : Ext α) (k : Nat) (T : List Tri) (A : List ℚ)
    (s : RS α) :
    (ubLoop E k T A s).2 = ⟨s.idx + 3 * k, s.trace ++ List.replicate (3 * k) Ev.rnd⟩ := by
  induction k generalizing s with
  | zero => simp [ubLoop]
  | succ k ih =>
    simp only [ubLoop, draw]
    rw [ut_state, ih]
    simp only [RS.mk.injEq]
    refine ⟨by omega, ?_⟩
    rw [show 3 * (k + 1) = 3 + 3 * k by omega, List.replicate_add]
    simp [List.replicate_succ]

theorem ubLoop_len (E : Ext α) (k : Nat) (T : List Tri) (A : List ℚ)
    (s : RS α) : (ubLoop E k T A s).1.length = k := by
  induction k generalizing s with
  | zero => simp [ubLoop]
  | succ k ih => simp [ubLoop, draw, ih, ut_len]; omega

theorem ub_state (E : Ext α) (n : Nat) (br : Polygon) (s : RS α) :
    (genNodesUniformBounded E n br s).2
      = ⟨s.idx + 3 * n,
         s.trace ++ Ev.uniformBatch n :: Ev.earclipCall br ::
           List.replicate (3 * n) Ev.rnd⟩ := by
  simp only [genNodesUniformBounded]
  rw [ubLoop_state]
  simp

theorem ub_len (E : Ext α) (n : Nat) (br : Polygon) (s : RS α) :
    (genNodesUniformBounded E n br s).1.length = n := by
  simp only [genNodesUniformBounded]
  rw [ubLoop_len]

theorem nbAttempt_inPoly (E : Ext α) (br : Polygon) (c : Coord) (sd : ℚ)
    (fuel : Nat) (s : RS α) (p : Coord) (s1 : RS α)
    (h : nbAttempt E br c sd fuel s = some (p, s1)) :
    E.geoIsPointInPoly p br = true := by
  induction fuel generalizing s with
  | zero => simp [nbAttempt] at h
  | succ fuel ih =>
    simp only [nbAttempt, draw] at h
    by_cases hin : E.geoIsPointInPoly
        (E.geoPointInDistance2D c (E.stream s.idx) (E.stream (s.idx + 1))) br
    · rw [if_pos hin] at h
      simp only [Option.some.injEq, Prod.mk.injEq] at h
      exact h.1 ▸ hin
    · rw [if_neg hin] at h
      exact ih _ h

theorem nb_mem_inPoly (E : Ext α) (fuel n : Nat) (br : Polygon) (c : Coord)
    (sd : ℚ) (s : RS α) (locs : List Coord) (s1 : RS α)
    (h : genNodesNormalBounded E fuel n br c sd s = some (locs, s1)) :
    ∀ p ∈ locs, E.geoIsPointInPoly p br = true := by
  induction n generalizing s locs s1 with
  | zero =>
    simp only [genNodesNormalBounded, Option.some.injEq, Prod.mk.injEq] at h
    rw [← h.1]
    intro p hp
    simp at hp
  | succ n ih =>
    simp only [genNodesNormalBounded] at h
    cases ha : nbAttempt E br c sd fuel s with
    | none => rw [ha] at h; simp at h
    | some r =>
      obtain ⟨p0, s0⟩ := r
      rw [ha] at h
      simp only at h
      cases hb : genNodesNormalBounded E fuel n br c sd s0 with
      | none => rw [hb] at h; simp at h
      | some r2 =>
        obtain ⟨rest, s2⟩ := r2
        rw [hb] at h
        simp only [Option.some.injEq, Prod.mk.injEq] at h
        rw [← h.1]
        intro p hp
        rcases List.mem_cons.mp hp with h1 | h2
        · rw [h1]; exact nbAttempt_inPoly E br c sd fuel s p0 s0 ha
        · exact ih s0 rest s2 hb p h2

theorem nb_len (E : Ext α) (fuel n : Nat) (br : Polygon) (c : Coord)
    (sd : ℚ) (s : RS α) (locs : List Coord) (s1 : RS α)
    (h : genNodesNormalBounded E fuel n br c sd s = some (locs, s1)) :
    locs.length = n := by
  induction n generalizing s locs s1 with
  | zero =>
    simp only [genNodesNormalBounded, Option.some.injEq, Prod.mk.injEq] at h
    rw [← h.1]
    rfl
  | succ n ih =>
    simp only [genNodesNormalBounded] at h
    cases ha : nbAttempt E br c sd fuel s with
    | none => rw [ha] at h; simp at h
    | some r =>
      obtain ⟨p0, s0⟩ := r
      rw [ha] at h
      simp only at h
      cases hb : genNodesNormalBounded E fuel n br c sd s0 with
      | none => rw [hb] at h; simp at h
      | some r2 =>
        obtain ⟨rest, s2⟩ := r2
        rw [hb] at h
        simp only [Option.some.injEq, Prod.mk.injEq] at h
        rw [← h.1]
        simp only [List.length_cons]
        rw [ih s0 rest s2 hb]

theorem acceptClose_len (E : Ext α) (d : ℚ) (xs ys : List Coord) :
    (acceptClose E d xs ys).length ≤ xs.length := by
  induction xs generalizing ys with
  | nil => simp [acceptClose]
  | cons p ps ih =>
    cases ys with
    | nil => simp [acceptClose]
    | cons q qs =>
      simp only [acceptClose]
      by_cases hd : E.geoDistance2D p q ≤ d
      · rw [if_pos hd]
        simpa using ih qs
      · rw [if_neg hd]
        exact le_trans (ih qs) (Nat.le_succ _)

theorem acceptClose_good (E : Ext α) (d : ℚ) (xs : List Coord) :
    ∀ p ∈ acceptClose E d xs (xs.map E.nearestRoad),
      p ∈ xs ∧ E.geoDistance2D p (E.nearestRoad p) ≤ d := by
  induction xs with
  | nil => intro p hp; simp [acceptClose] at hp
  | cons x xs ih =>
    intro p hp
    simp only [List.map_cons, acceptClose] at hp
    by_cases hd : E.geoDistance2D x (E.nearestRoad x) ≤ d
    · rw [if_pos hd] at hp
      rcases List.mem_cons.mp hp with h1 | h2
      · subst h1; exact ⟨List.mem_cons_self .., hd⟩
      · obtain ⟨hm, hdd⟩ := ih p h2
        exact ⟨List.mem_cons_of_mem _ hm, hdd⟩
    · rw [if_neg hd] at hp
      obtain ⟨hm, hdd⟩ := ih p hp
      exact ⟨List.mem_cons_of_mem _ hm, hdd⟩

theorem rb_len (E : Ext α) (n : Nat) (br : Polygon) (d : ℚ)
    (prov : Option String) (pa : α) (db : Option String) :
    ∀ (fuel : Nat) (locs : List Coord) (s : RS α) (out : List Coord) (s1 : RS α),
      locs.length ≤ n →
      rbLoop E n br d prov pa db fuel locs s = some (out, s1) →
      out.length = n := by
  intro fuel
  induction fuel with
  | zero =>
    intro locs s out s1 hle h
    simp only [rbLoop] at h
    by_cases hlt : locs.length < n
    · rw [if_pos hlt] at h; simp at h
    · rw [if_neg hlt] at h
      simp only [Option.some.injEq, Prod.mk.injEq] at h
      rw [← h.1]; omega
  | succ fuel ih =>
    intro locs s out s1 hle h
    simp only [rbLoop] at h
    by_cases hlt : locs.length < n
    · rw [if_pos hlt] at h
      refine ih _ _ out s1 ?_ h
      have h1 := acceptClose_len E d (genNodesUniformBounded E (n - locs.length) br s).1
        (privGetSnapLocBatch E (genNodesUniformBounded E (n - locs.length) br s).1
          prov pa db (genNodesUniformBounded E (n - locs.length) br s).2).1
      have h2 := ub_len E (n - locs.length) br s
      simp only [List.length_append]
      omega
    · rw [if_neg hlt] at h
      simp only [Option.some.injEq, Prod.mk.injEq] at h
      rw [← h.1]; omega

theorem rb_good (E : Ext α) (n : Nat) (br : Polygon) (d : ℚ)
    (prov : Option String) (pa : α) (db : Option String) :
    ∀ (fuel : Nat) (locs : List Coord) (s : RS α) (out : List Coord) (s1 : RS α),
      (∀ p ∈ locs, E.geoDistance2D p (E.nearestRoad p) ≤ d
        ∧ ∃ m s0, p ∈ (genNodesUniformBounded E m br s0).1) →
      rbLoop E n br d prov pa db fuel locs s = some (out, s1) →
      ∀ p ∈ out, E.geoDistance2D p (E.nearestRoad p) ≤ d
        ∧ ∃ m s0, p ∈ (genNodesUniformBounded E m br s0).1 := by
  intro fuel
  induction fuel with
  | zero =>
    intro locs s out s1 hg h
    simp only [rbLoop] at h
    by_cases hlt : locs.length < n
    · rw [if_pos hlt] at h; simp at h
    · rw [if_neg hlt] at h
      simp only [Option.some.injEq, Prod.mk.injEq] at h
      rw [← h.1]; exact hg
  | succ fuel ih =>
    intro locs s out s1 hg h
    simp only [rbLoop] at h
    by_cases hlt : locs.length < n
    · rw [if_pos hlt] at h
      refine ih _ _ out s1 ?_ h
      intro p hp
      rcases List.mem_append.mp hp with hm | hm
      · exact hg p hm
      · simp only [privGetSnapLocBatch] at hm
        obtain ⟨hmem, hdd⟩ := acceptClose_good E d
          (genNodesUniformBounded E (n - locs.length) br s).1 p hm
        exact ⟨hdd, n - locs.length, s, hmem⟩
    · rw [if_neg hlt] at h
      simp only [Option.some.injEq, Prod.mk.injEq] at h
      rw [← h.1]; exact hg

theorem rb_rounds (E : Ext α) (n : Nat) (br : Polygon) (d : ℚ)
    (prov : Option String) (pa : α) (db : Option String) :
    ∀ (fuel : Nat) (locs : List Coord) (s : RS α) (out : List Coord) (s1 : RS α),
      locs.length ≤ n →
      rbLoop E n br d prov pa db fuel locs s = some (out, s1) →
      ∃ delta, s1.trace = s.trace ++ delta
        ∧ RoadRounds br prov pa db n locs.length delta := by
  intro fuel
  induction fuel with
  | zero =>
    intro locs s out s1 hle h
    simp only [rbLoop] at h
    by_cases hlt : locs.length < n
    · rw [if_pos hlt] at h; simp at h
    · rw [if_neg hlt] at h
      simp only [Option.some.injEq, Prod.mk.injEq] at h
      exact ⟨[], by rw [← h.2]; simp, RoadRounds.done _ (by omega)⟩
  | succ fuel ih =>
    intro locs s out s1 hle h
    simp only [rbLoop] at h
    by_cases hlt : locs.length < n
    · rw [if_pos hlt] at h
      set need := n - locs.length with hneed
      set B := genNodesUniformBounded E need br s with hB
      set SN := privGetSnapLocBatch E B.1 prov pa db B.2 with hSN
      set AC := acceptClose E d B.1 SN.1 with hAC
      have hBlen : B.1.length = need := by rw [hB]; exact ub_len ..
      have hACle : AC.length ≤ need := by
        rw [hAC]
        exact le_trans (acceptClose_len ..) (le_of_eq hBlen)
      have hacc : (locs ++ AC).length ≤ n := by
        simp only [List.length_append]; omega
      obtain ⟨delta, htr, hrr⟩ := ih _ _ out s1 hacc h
      refine ⟨Ev.uniformBatch need :: Ev.earclipCall br ::
        (List.replicate (3 * need) Ev.rnd ++
         Ev.snapCall need prov pa db :: delta), ?_, ?_⟩
      · rw [htr, hSN]
        simp only [privGetSnapLocBatch, hBlen]
        rw [hB, ub_state]
        simp
      · have hrr2 : RoadRounds br prov pa db n (locs.length + AC.length) delta := by
          rw [← List.length_append]
          exact hrr
        exact RoadRounds.round locs.length AC.length delta hlt hACle hrr2
    · rw [if_neg hlt] at h
      simp only [Option.some.injEq, Prod.mk.injEq] at h
      exact ⟨[], by rw [← h.2]; simp, RoadRounds.done _ (by omega)⟩

theorem roadRounds_snap_args (br : Polygon) (prov : Option String) (pa : α)
    (db : Option String) (n : Nat) :
    ∀ (acc : Nat) (delta : List (Ev α)),
      RoadRounds br prov pa db n acc delta →
      ∀ k p2 a2 d2, Ev.snapCall k p2 a2 d2 ∈ delta → a2 = pa := by
  intro acc delta h
  induction h with
  | done => intro k p2 a2 d2 hm; simp at hm
  | round acc m rest h1 h2 h3 ih =>
    intro k p2 a2 d2 hm
    simp only [List.mem_cons, List.mem_append, List.eq_replicate_iff] at hm
    rcases hm with h | h | h | h
    · cases h
    · cases h
    · exact absurd (List.eq_of_mem_replicate h) (by simp)
    · rcases h with h4 | h5
      · cases h4; rfl
      · exact ih k p2 a2 d2 h5

theorem gn_len (E : Ext α) (n : Nat) (c : Coord) (sd : ℚ) (s : RS α) :
    (genNodesNormal E n c sd s).1.length = n := by
  induction n generalizing s with
  | zero => simp [genNodesNormal]
  | succ n ih => simp [genNodesNormal, draw, ih]

theorem tag_road_uniform : ("unifRoadBasedBB" = "uniformBB") = False := by decide

theorem tag_road_normal : ("unifRoadBasedBB" = "normal") = False := by decide

theorem tag_road_normalBB : ("unifRoadBasedBB" = "normalBB") = False := by decide

theorem tag_normal_uniform : ("normal" = "uniformBB") = False := by decide

theorem tag_normalBB_uniform : ("normalBB" = "uniformBB") = False := by decide

theorem tag_normalBB_normal : ("normalBB" = "normal") = False := by decide

theorem generateNodes_road_dispatch (E : Ext α) (fuel numNodes : Nat)
    (val : ValResult) (args : DistribArgs) (br : Polygon) (d2r : ℚ)
    (prov : Option String) (pa : α) (s : RS α) (hval : val.valFlag = true)
    (hbr : args.boundingRegion = some br) (hd : args.distToRoad = some d2r) :
    generateNodes E fuel val numNodes "unifRoadBasedBB" args prov pa s
      = match genNodesRoadBased E fuel numNodes br d2r prov pa none s with
        | none => (GenOut.exhausted, s)
        | some (locs, s1) => (GenOut.nodes locs, s1) := by
  simp [generateNodes, hval, hbr, hd, tag_road_uniform, tag_road_normal,
    tag_road_normalBB]

/-! The claims. -/

/-- Claim C1: every call to any of the four distribution samplers with a
requested count `numNodes` returns a coordinate list of length exactly
`numNodes`: the uniform-in-polygon and the two normal samplers append one
coordinate per iteration over `numNodes` iterations, and the road-proximity
sampler loops drawing and filtering candidates until exactly `numNodes`
accepted coordinates are collected — whenever a rejection loop returns (the
`some` case of the fuel model), never fewer or more. -/
theorem C1_batch_sizes (E : Ext α) (fuel numNodes : Nat) (br : Polygon)
    (center : Coord) (sd d2r : ℚ) (prov : Option String) (pa : α)
    (db : Option String) (s : RS α) :
    (genNodesUniformBounded E numNodes br s).1.length = numNodes
  ∧ (genNodesNormal E numNodes center sd s).1.length = numNodes
  ∧ (∀ locs s1, genNodesNormalBounded E fuel numNodes br center sd s
        = some (locs, s1) → locs.length = numNodes)
  ∧ (∀ locs s1, genNodesRoadBased E fuel numNodes br d2r prov pa db s
        = some (locs, s1) → locs.length = numNodes) := by
  refine ⟨ub_len .., gn_len .., ?_, ?_⟩
  · intro locs s1 h
    exact nb_len E fuel numNodes br center sd s locs s1 h
  · intro locs s1 h
    exact rb_len E numNodes br d2r prov pa db fuel [] s locs s1 (by simp) h

/-- Witness for C1: a concrete run of each sampler returns exactly 2 points. -/
theorem C1_batch_sizes_witness :
    (genNodesUniformBounded testExt 2 testPoly ⟨0, []⟩).1.length = 2
  ∧ (genNodesNormal testExt 2 (0, 0) 1 ⟨0, []⟩).1.length = 2
  ∧ (genNodesNormalBounded testExt 1 2 testPoly (0, 0) 1 ⟨0, []⟩
      = some ([(0, 0), (0, 0)], ⟨4, [Ev.rnd, Ev.rnd, Ev.rnd, Ev.rnd]⟩)
    ∧ ([((0 : ℚ), (0 : ℚ)), (0, 0)] : List Coord).length = 2)
  ∧ (genNodesRoadBased testExt 1 2 testPoly 1 none "A" none ⟨0, []⟩
      = some ([(1, 1), (1, 1)],
          ⟨6, [Ev.uniformBatch 2, Ev.earclipCall testPoly, Ev.rnd, Ev.rnd,
               Ev.rnd, Ev.rnd, Ev.rnd, Ev.rnd, Ev.snapCall 2 none "A" none]⟩)
    ∧ ([((1 : ℚ), (1 : ℚ)), (1, 1)] : List Coord).length = 2) := by
  have h := C1_batch_sizes testExt 1 2 testPoly (0, 0) 1 1 none "A" none ⟨0, []⟩
  have hnb : genNodesNormalBounded testExt 1 2 testPoly (0, 0) 1 ⟨0, []⟩
      = some ([(0, 0), (0, 0)], ⟨4, [Ev.rnd, Ev.rnd, Ev.rnd, Ev.rnd]⟩) := rfl
  have hrb : genNodesRoadBased testExt 1 2 testPoly 1 none "A" none ⟨0, []⟩
      = some ([(1, 1), (1, 1)],
          ⟨6, [Ev.uniformBatch 2, Ev.earclipCall testPoly, Ev.rnd, Ev.rnd,
               Ev.rnd, Ev.rnd, Ev.rnd, Ev.rnd, Ev.snapCall 2 none "A" none]⟩) := by
    norm_num [genNodesRoadBased, rbLoop, genNodesUniformBounded, ubLoop,
      genNodesUniformTriangle, draw, privGetSnapLocBatch, acceptClose,
      randomPick, randomPickScan, areaOfTriangle, testExt, testPoly]
  exact ⟨h.1, h.2.1, ⟨hnb, h.2.2.1 _ _ hnb⟩, ⟨hrb, h.2.2.2 _ _ hrb⟩⟩

/-- Claim C2: every coordinate returned by the normal-bounded sampler satisfies
the point-in-polygon test against the supplied bounding region; a point is
appended only after `geoIsPointInPoly` holds, the first draw of each point
included (the source's draw-then-while is a do-while). -/
theorem C2_normal_bounded_in_poly (E : Ext α) (fuel numNodes : Nat)
    (br : Polygon) (center : Coord) (sd : ℚ) (s : RS α) (locs : List Coord)
    (s1 : RS α)
    (h : genNodesNormalBounded E fuel numNodes br center sd s = some (locs, s1)) :
    ∀ p ∈ locs, E.geoIsPointInPoly p br = true :=
  nb_mem_inPoly E fuel numNodes br center sd s locs s1 h

/-- Witness for C2: a concrete normal-bounded run returns `(0, 0)` among its
points, and that point passes the point-in-polygon test. -/
theorem C2_normal_bounded_in_poly_witness :
    genNodesNormalBounded testExt 1 2 testPoly (0, 0) 1 ⟨0, []⟩
      = some ([(0, 0), (0, 0)], ⟨4, [Ev.rnd, Ev.rnd, Ev.rnd, Ev.rnd]⟩)
  ∧ testExt.geoIsPointInPoly (0, 0) testPoly = true :=
  ⟨rfl,
   C2_normal_bounded_in_poly testExt 1 2 testPoly (0, 0) 1 ⟨0, []⟩
     [(0, 0), (0, 0)] ⟨4, [Ev.rnd, Ev.rnd, Ev.rnd, Ev.rnd]⟩ rfl
     (0, 0) (by simp)⟩

/-- Claim C3: every coordinate returned by the road-proximity sampler is one of
the original (pre-snap) uniform candidates — it is an output of the
uniform-in-polygon sampler — and its distance, as computed by `geoDistance2D`,
to the snap result `nearestRoad p` that the adapter returned for that candidate
is at most `distToRoad`; failing candidates are discarded. -/
theorem C3_road_presnap_within (E : Ext α) (fuel numNodes : Nat) (br : Polygon)
    (d2r : ℚ) (prov : Option String) (pa : α) (db : Option String) (s : RS α)
    (locs : List Coord) (s1 : RS α)
    (h : genNodesRoadBased E fuel numNodes br d2r prov pa db s = some (locs, s1)) :
    ∀ p ∈ locs, E.geoDistance2D p (E.nearestRoad p) ≤ d2r
      ∧ ∃ m s0, p ∈ (genNodesUniformBounded E m br s0).1 :=
  rb_good E numNodes br d2r prov pa db fuel [] s locs s1 (by simp) h

/-- Witness for C3: in a concrete road-based run the returned point `(1, 1)` is
within the distance threshold of its snap result. -/
theorem C3_road_presnap_within_witness :
    genNodesRoadBased testExt 1 2 testPoly 1 none "A" none ⟨0, []⟩
      = some ([(1, 1), (1, 1)],
          ⟨6, [Ev.uniformBatch 2, Ev.earclipCall testPoly, Ev.rnd, Ev.rnd,
               Ev.rnd, Ev.rnd, Ev.rnd, Ev.rnd, Ev.snapCall 2 none "A" none]⟩)
  ∧ testExt.geoDistance2D (1, 1) (testExt.nearestRoad (1, 1)) ≤ 1 := by
  have hrb : genNodesRoadBased testExt 1 2 testPoly 1 none "A" none ⟨0, []⟩
      = some ([(1, 1), (1, 1)],
          ⟨6, [Ev.uniformBatch 2, Ev.earclipCall testPoly, Ev.rnd, Ev.rnd,
               Ev.rnd, Ev.rnd, Ev.rnd, Ev.rnd, Ev.snapCall 2 none "A" none]⟩) := by
    norm_num [genNodesRoadBased, rbLoop, genNodesUniformBounded, ubLoop,
      genNodesUniformTriangle, draw, privGetSnapLocBatch, acceptClose,
      randomPick, randomPickScan, areaOfTriangle, testExt, testPoly]
  exact ⟨hrb,
    (C3_road_presnap_within testExt 1 2 testPoly 1 none "A" none ⟨0, []⟩
      [(1, 1), (1, 1)]
      ⟨6, [Ev.uniformBatch 2, Ev.earclipCall testPoly, Ev.rnd, Ev.rnd,
           Ev.rnd, Ev.rnd, Ev.rnd, Ev.rnd, Ev.snapCall 2 none "A" none]⟩
      hrb (1, 1) (by simp)).1⟩

/-- Claim C4: the uniform-in-triangle sampler produces each point exactly by
the barycentric transform `(1-√r1)·V1 + √r1·(1-r2)·V2 + √r1·r2·V3` (with `√`
the program's square-root routine), where the `k`-th point consumes exactly the
two fresh draws `r1, r2` at stream positions `idx + 2k` and `idx + 2k + 1` and
the same `(r1, r2)` pair is applied componentwise to the latitudes and the
longitudes of the triangle's three vertices. -/
theorem C4_barycentric (E : Ext α) (numNodes : Nat) (t : Tri) (s : RS α) :
    (genNodesUniformTriangle E numNodes t s).1.length = numNodes
  ∧ (genNodesUniformTriangle E numNodes t s).2.idx = s.idx + 2 * numNodes
  ∧ ∀ k, k < numNodes →
      (genNodesUniformTriangle E numNodes t s).1.getD k (0, 0)
        = specBarycentric E.msqrt (E.stream (s.idx + 2 * k))
            (E.stream (s.idx + 2 * k + 1)) t := by
  exact ⟨ut_len E numNodes t s, by rw [ut_state], ut_getD E numNodes t s⟩

/-- Witness for C4: the first point of a concrete run equals the spec's
barycentric transform of the first two stream values. -/
theorem C4_barycentric_witness :
    (0 : Nat) < 1
  ∧ (genNodesUniformTriangle testExt 1 ((0, 0), (0, 4), (4, 0)) ⟨0, []⟩).1.getD 0 (0, 0)
      = specBarycentric testExt.msqrt (testExt.stream (0 + 2 * 0))
          (testExt.stream (0 + 2 * 0 + 1)) ((0, 0), (0, 4), (4, 0)) :=
  ⟨by decide,
   (C4_barycentric testExt 1 ((0, 0), (0, 4), (4, 0)) ⟨0, []⟩).2.2 0 (by decide)⟩

/-- Claim C5: one call to the uniform-in-polygon sampler triangulates the
bounding polygon exactly once — its trace contains exactly one `earclipCall`
event, emitted before the draws — and every one of the `numNodes` iterations
then performs exactly one weighted triangle pick (one draw, inside
`randomPick`) and one uniform-in-triangle draw (two draws), reusing the
precomputed triangle and area lists: the trace grows by exactly one
`earclipCall` plus `3 * numNodes` draws, never one triangulation per point. -/
theorem C5_triangulate_once (E : Ext α) (numNodes : Nat) (br : Polygon)
    (s : RS α) :
    (genNodesUniformBounded E numNodes br s).2.trace
      = s.trace ++ Ev.uniformBatch numNodes :: Ev.earclipCall br ::
          List.replicate (3 * numNodes) Ev.rnd
  ∧ (genNodesUniformBounded E numNodes br s).2.idx = s.idx + 3 * numNodes := by
  rw [ub_state]
  exact ⟨rfl, rfl⟩

/-- Claim C6: when the orchestrator dispatches road-proximity sampling
("unifRoadBasedBB"), the caller-supplied `dataProviderArgs` value is delivered
to the road-snap adapter as its provider-arguments parameter on every adapter
invocation of the run: every `snapCall` event appended to the trace carries
exactly that value (the source routes it positionally through
`_genNodesRoadBased`'s `APIkey` parameter into the adapter's third argument,
the provider-arguments slot of the spec's `snapBatch` contract). -/
theorem C6_provider_args_delivered (E : Ext α) (fuel numNodes : Nat)
    (val : ValResult) (args : DistribArgs) (br : Polygon) (d2r : ℚ)
    (prov : Option String) (pa : α) (s : RS α)
    (hval : val.valFlag = true) (hbr : args.boundingRegion = some br)
    (hd : args.distToRoad = some d2r) :
    ∀ k p2 a2 d2, Ev.snapCall k p2 a2 d2 ∈
        ((generateNodes E fuel val numNodes "unifRoadBasedBB" args prov pa
          s).2.trace.drop s.trace.length) → a2 = pa := by
  intro k p2 a2 d2 hm
  rw [generateNodes_road_dispatch E fuel numNodes val args br d2r prov pa s
    hval hbr hd] at hm
  cases hr : genNodesRoadBased E fuel numNodes br d2r prov pa none s with
  | none =>
    rw [hr] at hm
    simp only [List.drop_length] at hm
    simp at hm
  | some r =>
    obtain ⟨locs, s1⟩ := r
    rw [hr] at hm
    simp only at hm
    obtain ⟨delta, htr, hrr⟩ := rb_rounds E numNodes br d2r prov pa none fuel
      [] s locs s1 (by simp) hr
    rw [htr, List.drop_left] at hm
    exact roadRounds_snap_args br prov pa none numNodes 0 delta
      (by simpa using hrr) k p2 a2 d2 hm

/-- Witness for C6: in a concrete road-based dispatch the single adapter call
carries the caller's `dataProviderArgs` value "A". -/
theorem C6_provider_args_delivered_witness :
    Ev.snapCall 2 none "A" none ∈
      ((generateNodes testExt 1 ⟨true, "", ""⟩ 2 "unifRoadBasedBB"
          ⟨some testPoly, none, none, some 1⟩ none "A" ⟨0, []⟩).2.trace.drop 0)
  ∧ ("A" : String) = "A" := by
  have hg : generateNodes testExt 1 ⟨true, "", ""⟩ 2 "unifRoadBasedBB"
      ⟨some testPoly, none, none, some 1⟩ none "A" ⟨0, []⟩
      = (GenOut.nodes [(1, 1), (1, 1)],
         ⟨6, [Ev.uniformBatch 2, Ev.earclipCall testPoly, Ev.rnd, Ev.rnd,
              Ev.rnd, Ev.rnd, Ev.rnd, Ev.rnd, Ev.snapCall 2 none "A" none]⟩) := by
    norm_num [generateNodes, genNodesRoadBased, rbLoop, genNodesUniformBounded,
      ubLoop, genNodesUniformTriangle, draw, privGetSnapLocBatch, acceptClose,
      randomPick, randomPickScan, areaOfTriangle, testExt, testPoly,
      tag_road_uniform, tag_road_normal, tag_road_normalBB]
  constructor
  · rw [hg]; simp
  · exact C6_provider_args_delivered testExt 1 2 ⟨true, "", ""⟩
      ⟨some testPoly, none, none, some 1⟩ testPoly 1 none "A" ⟨0, []⟩ rfl rfl rfl
      2 none "A" none (by rw [hg]; simp)

/-- Claim C7: in every round of the road-proximity sampler's rejection loop,
the number of fresh uniform-in-polygon candidates drawn equals exactly the
number still needed (`numNodes` minus the count accepted so far), and the
whole candidate batch is submitted to the adapter in a single call per round:
the trace of a completed run decomposes by `RoadRounds` into rounds, each with
one `uniformBatch (numNodes - acc)` request (and its `3 * (numNodes - acc)`
draws) followed by exactly one `snapCall` of the same batch size. -/
theorem C7_one_call_per_round (E : Ext α) (fuel numNodes : Nat) (br : Polygon)
    (d2r : ℚ) (prov : Option String) (pa : α) (db : Option String) (s : RS α)
    (locs : List Coord) (s1 : RS α)
    (h : genNodesRoadBased E fuel numNodes br d2r prov pa db s = some (locs, s1)) :
    RoadRounds br prov pa db numNodes 0 (s1.trace.drop s.trace.length) := by
  obtain ⟨delta, htr, hrr⟩ := rb_rounds E numNodes br d2r prov pa db fuel
    [] s locs s1 (by simp) h
  rw [htr, List.drop_left]
  simpa using hrr

/-- Witness for C7: the trace of a concrete completed road-based run satisfies
the per-round batching discipline. -/
theorem C7_one_call_per_round_witness :
    RoadRounds testPoly none "A" none 2 0
      ((⟨6, [Ev.uniformBatch 2, Ev.earclipCall testPoly, Ev.rnd, Ev.rnd,
             Ev.rnd, Ev.rnd, Ev.rnd, Ev.rnd, Ev.snapCall 2 none "A" none]⟩ :
          RS String).trace.drop ((⟨0, []⟩ : RS String).trace.length)) := by
  have hrb : genNodesRoadBased testExt 1 2 testPoly 1 none "A" none ⟨0, []⟩
      = some ([(1, 1), (1, 1)],
          ⟨6, [Ev.uniformBatch 2, Ev.earclipCall testPoly, Ev.rnd, Ev.rnd,
               Ev.rnd, Ev.rnd, Ev.rnd, Ev.rnd, Ev.snapCall 2 none "A" none]⟩) := by
    norm_num [genNodesRoadBased, rbLoop, genNodesUniformBounded, ubLoop,
      genNodesUniformTriangle, draw, privGetSnapLocBatch, acceptClose,
      randomPick, randomPickScan, areaOfTriangle, testExt, testPoly]
  exact C7_one_call_per_round testExt 1 2 testPoly 1 none "A" none ⟨0, []⟩
    [(1, 1), (1, 1)] _ hrb

/-- Claim C8: if the validation collaborator reports failure for
`generateNodes`' inputs — including an unsupported `nodeDistrib` tag — the
call returns the configuration-error outcome (the source prints the error and
returns `None`) with the state unchanged: no sampling work, no trace events,
and no random draws happen before returning. -/
theorem C8_validation_gate (E : Ext α) (fuel numNodes : Nat) (val : ValResult)
    (nodeDistrib : String) (args : DistribArgs) (prov : Option String) (pa : α)
    (s : RS α) (h : val.valFlag = false) :
    generateNodes E fuel val numNodes nodeDistrib args prov pa s
      = (GenOut.validationError, s) := by
  simp [generateNodes, h]

/-- Witness for C8: a concrete failed validation returns the error outcome
with untouched state. -/
theorem C8_validation_gate_witness :
    generateNodes testExt 1 ⟨false, "err", ""⟩ 5 "uniformBB"
      ⟨some testPoly, none, none, none⟩ none "A" ⟨0, []⟩
      = (GenOut.validationError, ⟨0, []⟩) :=
  C8_validation_gate testExt 1 5 ⟨false, "err", ""⟩ "uniformBB"
    ⟨some testPoly, none, none, none⟩ none "A" ⟨0, []⟩ rfl

/-- Claim C9: for every parameter bag containing the `boundingRegion` key
together with `center` and `stdDev`, calling `generateNodes` with
`nodeDistrib = "normal"` is equivalent to calling it with
`nodeDistrib = "normalBB"`: both dispatch to the bounded normal sampler with
identical arguments, so the unbounded normal sampler is never used when a
bounding region is supplied. -/
theorem C9_normal_equiv_normalBB (E : Ext α) (fuel numNodes : Nat)
    (val : ValResult) (args : DistribArgs) (br : Polygon) (c : Coord) (sd : ℚ)
    (prov : Option String) (pa : α) (s : RS α)
    (hbr : args.boundingRegion = some br) (hc : args.center = some c)
    (hsd : args.stdDev = some sd) :
    generateNodes E fuel val numNodes "normal" args prov pa s
      = generateNodes E fuel val numNodes "normalBB" args prov pa s := by
  simp [generateNodes, hbr, hc, hsd, tag_normal_uniform, tag_normalBB_uniform,
    tag_normalBB_normal]

/-- Witness for C9: a concrete parameter bag with all three keys present gives
identical results for the "normal" and "normalBB" tags. -/
theorem C9_normal_equiv_normalBB_witness :
    generateNodes testExt 1 ⟨true, "", ""⟩ 2 "normal"
      ⟨some testPoly, some (0, 0), some 1, none⟩ none "A" ⟨0, []⟩
      = generateNodes testExt 1 ⟨true, "", ""⟩ 2 "normalBB"
          ⟨some testPoly, some (0, 0), some 1, none⟩ none "A" ⟨0, []⟩ :=
  C9_normal_equiv_normalBB testExt 1 2 ⟨true, "", ""⟩
    ⟨some testPoly, some (0, 0), some 1, none⟩ testPoly (0, 0) 1 none "A"
    ⟨0, []⟩ rfl rfl rfl

/-- Claim C10: if validation succeeds but `nodeDistrib` is none of the four
dispatched tags, `generateNodes` reaches node construction with `locs` never
assigned and fails with the unbound-local error, state untouched; it never
returns a nodes dataframe in that case (the fall-through branch of the model
is exactly the no-branch-taken case of the source's `elif` chain). -/
theorem C10_unknown_tag_unbound_local (E : Ext α) (fuel numNodes : Nat)
    (val : ValResult) (nodeDistrib : String) (args : DistribArgs)
    (prov : Option String) (pa : α) (s : RS α) (hval : val.valFlag = true)
    (h1 : nodeDistrib ≠ "uniformBB") (h2 : nodeDistrib ≠ "normal")
    (h3 : nodeDistrib ≠ "normalBB") (h4 : nodeDistrib ≠ "unifRoadBasedBB") :
    generateNodes E fuel val numNodes nodeDistrib args prov pa s
      = (GenOut.unboundLocal, s) := by
  simp [generateNodes, hval, h1, h2, h3, h4]

/-- Witness for C10: a concrete unsupported tag hits the unbound-local error. -/
theorem C10_unknown_tag_unbound_local_witness :
    generateNodes testExt 1 ⟨true, "", ""⟩ 2 "uniformXY"
      ⟨some testPoly, none, none, none⟩ none "A" ⟨0, []⟩
      = (GenOut.unboundLocal, ⟨0, []⟩) :=
  C10_unknown_tag_unbound_local testExt 1 2 ⟨true, "", ""⟩ "uniformXY"
    ⟨some testPoly, none, none, none⟩ none "A" ⟨0, []⟩ rfl (by decide)
    (by decide) (by decide) (by decide)

end Veroviz
